import Mathlib

/-
Verification of the context-construction core of the NiTiS.Math code
generator (src/gen/src/output.rs): the `ContextBuilder` fluent accumulator
over a `tera::Context`, its `new_bvec` preset, and `build_output_pairs`.
-/

/-- Values stored in a `tera::Context`. The generator only ever inserts
Rust `&str` values (serialized to JSON strings) and `u32` values
(serialized to JSON numbers), so the value universe is restricted to
these two constructors. -/
inductive Tera.Value where
  | str : String → Tera.Value
  | num : Nat → Tera.Value
deriving DecidableEq, Repr

/-- `tera::Context` is a map from binding name to JSON value
(`BTreeMap<String, serde_json::Value>` in the source); modelled
extensionally as a partial function from keys to values. -/
def Tera.Context := String → Option Tera.Value

/-- `tera::Context::new()`: the empty context. -/
def Tera.Context.new : Tera.Context := fun _ => none

/-- The map-update underlying `tera::Context::insert`: bind `k` to `v`,
overwriting any previous binding for `k` and leaving other keys unchanged. -/
def Tera.Context.insertVal (c : Tera.Context) (k : String) (v : Tera.Value) : Tera.Context :=
  fun q => if q = k then some v else c q

/-- `serde_json::to_value` applied to a Rust `&str`: serialization of a
string never takes the error branch. -/
def Tera.toValueStr (s : String) : Except String Tera.Value :=
  Except.ok (Tera.Value.str s)

/-- `serde_json::to_value` applied to a Rust `u32`: serialization of a
machine integer never takes the error branch. `u32` values are embedded
as `Nat`; the generator only stores them verbatim and performs no
arithmetic, so no wrap-around is involved. -/
def Tera.toValueNat (n : Nat) : Except String Tera.Value :=
  Except.ok (Tera.Value.num n)

/-- `tera::Context::insert(key, val)` with the serialization step made
explicit: the source serializes `val` and unwraps the result, so a
serialization error would be a panic; the panic branch is modelled as
`none`. -/
def Tera.Context.insertSer (c : Tera.Context) (k : String) (e : Except String Tera.Value) :
    Option Tera.Context :=
  match e with
  | Except.ok v => some (c.insertVal k v)
  | Except.error _ => none

/-- `struct ContextBuilder(tera::Context)` from src/gen/src/output.rs. -/
structure ContextBuilder where
  ctx : Tera.Context

/-- `ContextBuilder::new()`: wraps an empty `tera::Context`. -/
def ContextBuilder.new : ContextBuilder :=
  ⟨Tera.Context.new⟩

/-- `ContextBuilder::with_template`: inserts `template` under the key
`"template_path"` and returns the builder. -/
def ContextBuilder.with_template (b : ContextBuilder) (template : String) : ContextBuilder :=
  ⟨b.ctx.insertVal "template_path" (Tera.Value.str template)⟩

/-- `ContextBuilder::with_element_type`: inserts `name` under the key
`"element_t"` and returns the builder. -/
def ContextBuilder.with_element_type (b : ContextBuilder) (name : String) : ContextBuilder :=
  ⟨b.ctx.insertVal "element_t" (Tera.Value.str name)⟩

/-- `ContextBuilder::with_dimension`: inserts `dim` under the key `"dim"`
and returns the builder. -/
def ContextBuilder.with_dimension (b : ContextBuilder) (dim : Nat) : ContextBuilder :=
  ⟨b.ctx.insertVal "dim" (Tera.Value.num dim)⟩

/-- `ContextBuilder::build`: consumes the builder and returns the inner
`tera::Context` unchanged. -/
def ContextBuilder.build (b : ContextBuilder) : Tera.Context :=
  b.ctx

/-- `ContextBuilder::new_bvec(dim)` from src/gen/src/output.rs: the
boolean-vector preset, `new().with_dimension(dim).with_element_type("bool")
.with_template("vec.cs.tera")`. -/
def ContextBuilder.new_bvec (dim : Nat) : ContextBuilder :=
  ((ContextBuilder.new.with_dimension dim).with_element_type "bool").with_template "vec.cs.tera"

/-- `build_output_pairs()`: the `HashMap::from` literal from
src/gen/src/output.rs, modelled as the association list of its entries
(one entry: `"BVector2d.cs"` mapped to `new_bvec(2).build()`). -/
def build_output_pairs : List (String × Tera.Context) :=
  [("BVector2d.cs", (ContextBuilder.new_bvec 2).build)]

/-- The preset exactly as the words of the specification (section 4.1)
describe it: `new().with_dimension(dim).with_element_type("bool")
.with_template("vec template")`, with the template literal `"vec template"`. -/
def ContextBuilder.new_bvec_specWords (dim : Nat) : ContextBuilder :=
  ((ContextBuilder.new.with_dimension dim).with_element_type "bool").with_template "vec template"

/-- Fallible variants of the setters, threading the explicit serialization
step of `tera::Context::insert`; used to show the unwrap inside each
setter never panics. -/
def ContextBuilder.with_templateSer (b : ContextBuilder) (template : String) :
    Option ContextBuilder :=
  (b.ctx.insertSer "template_path" (Tera.toValueStr template)).map ContextBuilder.mk

/-- Fallible variant of `with_element_type`; see `with_templateSer`. -/
def ContextBuilder.with_element_typeSer (b : ContextBuilder) (name : String) :
    Option ContextBuilder :=
  (b.ctx.insertSer "element_t" (Tera.toValueStr name)).map ContextBuilder.mk

/-- Fallible variant of `with_dimension`; see `with_templateSer`. -/
def ContextBuilder.with_dimensionSer (b : ContextBuilder) (dim : Nat) :
    Option ContextBuilder :=
  (b.ctx.insertSer "dim" (Tera.toValueNat dim)).map ContextBuilder.mk

/-- `new_bvec` with every serialization step explicit. -/
def ContextBuilder.new_bvecSer (dim : Nat) : Option ContextBuilder :=
  (((ContextBuilder.new.with_dimensionSer dim).bind
      (fun b => b.with_element_typeSer "bool")).bind
    (fun b => b.with_templateSer "vec.cs.tera"))

/-- `build_output_pairs` with every serialization step explicit. -/
def build_output_pairsSer : Option (List (String × Tera.Context)) :=
  (ContextBuilder.new_bvecSer 2).map (fun b => [("BVector2d.cs", b.build)])

/-- One call in a chain of generic setter calls on a `ContextBuilder`. -/
inductive SetterCall where
  | tmpl (template : String)
  | elemType (name : String)
  | dimension (dim : Nat)
deriving DecidableEq, Repr

/-- Apply one setter call to a builder. -/
def applySetter (b : ContextBuilder) : SetterCall → ContextBuilder
  | SetterCall.tmpl t => b.with_template t
  | SetterCall.elemType n => b.with_element_type n
  | SetterCall.dimension d => b.with_dimension d

/-- Run a finite sequence of setter calls starting from `new()`. -/
def runSetters (calls : List SetterCall) : ContextBuilder :=
  calls.foldl applySetter ContextBuilder.new

/-- The argument of the last `with_template` call in the sequence, if any. -/
def lastTemplate : List SetterCall → Option String
  | [] => none
  | c :: rest =>
    match lastTemplate rest with
    | some t => some t
    | none =>
      match c with
      | SetterCall.tmpl t => some t
      | _ => none

/-- The argument of the last `with_element_type` call in the sequence, if any. -/
def lastElementType : List SetterCall → Option String
  | [] => none
  | c :: rest =>
    match lastElementType rest with
    | some n => some n
    | none =>
      match c with
      | SetterCall.elemType n => some n
      | _ => none

/-- The argument of the last `with_dimension` call in the sequence, if any. -/
def lastDimension : List SetterCall → Option Nat
  | [] => none
  | c :: rest =>
    match lastDimension rest with
    | some d => some d
    | none =>
      match c with
      | SetterCall.dimension d => some d
      | _ => none

/-- After folding a sequence of setter calls over any initial builder, the
`"template_path"` binding is the last `with_template` argument, or the
initial builder's binding when the sequence contains no `with_template`. -/
theorem foldl_template_path (calls : List SetterCall) : ∀ b : ContextBuilder,
    (calls.foldl applySetter b).ctx "template_path" =
      match lastTemplate calls with
      | some t => some (Tera.Value.str t)
      | none => b.ctx "template_path" := by
  induction calls with
  | nil => intro b; rfl
  | cons c rest ih =>
    intro b
    rw [List.foldl_cons, ih]
    cases hrest : lastTemplate rest with
    | some t => simp [lastTemplate, hrest]
    | none =>
      cases c <;>
        simp [lastTemplate, hrest, applySetter, ContextBuilder.with_template,
          ContextBuilder.with_element_type, ContextBuilder.with_dimension, Tera.Context.insertVal]

/-- After folding a sequence of setter calls over any initial builder, the
`"element_t"` binding is the last `with_element_type` argument, or the
initial builder's binding when the sequence contains no such call. -/
theorem foldl_element_t (calls : List SetterCall) : ∀ b : ContextBuilder,
    (calls.foldl applySetter b).ctx "element_t" =
      match lastElementType calls with
      | some n => some (Tera.Value.str n)
      | none => b.ctx "element_t" := by
  induction calls with
  | nil => intro b; rfl
  | cons c rest ih =>
    intro b
    rw [List.foldl_cons, ih]
    cases hrest : lastElementType rest with
    | some n => simp [lastElementType, hrest]
    | none =>
      cases c <;>
        simp [lastElementType, hrest, applySetter, ContextBuilder.with_template,
          ContextBuilder.with_element_type, ContextBuilder.with_dimension, Tera.Context.insertVal]

/-- After folding a sequence of setter calls over any initial builder, the
`"dim"` binding is the last `with_dimension` argument, or the initial
builder's binding when the sequence contains no `with_dimension`. -/
theorem foldl_dim (calls : List SetterCall) : ∀ b : ContextBuilder,
    (calls.foldl applySetter b).ctx "dim" =
      match lastDimension calls with
      | some d => some (Tera.Value.num d)
      | none => b.ctx "dim" := by
  induction calls with
  | nil => intro b; rfl
  | cons c rest ih =>
    intro b
    rw [List.foldl_cons, ih]
    cases hrest : lastDimension rest with
    | some d => simp [lastDimension, hrest]
    | none =>
      cases c <;>
        simp [lastDimension, hrest, applySetter, ContextBuilder.with_template,
          ContextBuilder.with_element_type, ContextBuilder.with_dimension, Tera.Context.insertVal]

/-- Setter calls never touch a key other than the three recognized ones. -/
theorem foldl_other_key (calls : List SetterCall) : ∀ (b : ContextBuilder) (k : String),
    k ≠ "template_path" → k ≠ "element_t" → k ≠ "dim" →
    (calls.foldl applySetter b).ctx k = b.ctx k := by
  induction calls with
  | nil => intro b k _ _ _; rfl
  | cons c rest ih =>
    intro b k h1 h2 h3
    rw [List.foldl_cons, ih _ k h1 h2 h3]
    cases c <;>
      simp [applySetter, ContextBuilder.with_template, ContextBuilder.with_element_type,
        ContextBuilder.with_dimension, Tera.Context.insertVal, h1, h2, h3]

/-- C1: `build_output_pairs()` called with no arguments returns a mapping
with exactly one entry, key `"BVector2d.cs"` bound to a context whose
bindings are `template_path = "vec.cs.tera"`, `element_t = "bool"`,
`dim = 2`, and nothing else. -/
theorem build_output_pairs_single_entry :
    build_output_pairs = [("BVector2d.cs", (ContextBuilder.new_bvec 2).build)] ∧
    (ContextBuilder.new_bvec 2).build "template_path" = some (Tera.Value.str "vec.cs.tera") ∧
    (ContextBuilder.new_bvec 2).build "element_t" = some (Tera.Value.str "bool") ∧
    (ContextBuilder.new_bvec 2).build "dim" = some (Tera.Value.num 2) ∧
    ∀ k, k ≠ "template_path" → k ≠ "element_t" → k ≠ "dim" →
      (ContextBuilder.new_bvec 2).build k = none := by
  refine ⟨rfl, by decide, by decide, by decide, ?_⟩
  intro k h1 h2 h3
  simp [ContextBuilder.new_bvec, ContextBuilder.build, ContextBuilder.with_template,
    ContextBuilder.with_element_type, ContextBuilder.with_dimension, ContextBuilder.new,
    Tera.Context.insertVal, Tera.Context.new, h1, h2, h3]

/-- Witness for C1: the context bound to `"BVector2d.cs"` has no binding
at the unrecognized key `"other_key"`. -/
theorem build_output_pairs_single_entry_witness :
    (ContextBuilder.new_bvec 2).build "other_key" = none :=
  build_output_pairs_single_entry.2.2.2.2 "other_key" (by decide) (by decide) (by decide)

/-- C2 counterexample: `new_bvec(2)` is not equal to the composition the
claim states, `new().with_dimension(2).with_element_type("bool")
.with_template("vec template")` — the code's template literal is
`"vec.cs.tera"`, not `"vec template"`. -/
theorem new_bvec_ne_specWords :
    ¬ (ContextBuilder.new_bvec 2 = ContextBuilder.new_bvec_specWords 2) := by
  intro h
  have h2 := congrArg (fun b => b.ctx "template_path") h
  simp [ContextBuilder.new_bvec, ContextBuilder.new_bvec_specWords,
    ContextBuilder.with_template, Tera.Context.insertVal] at h2

/-- C2 (amended): for every dimension, `new_bvec(dim)` equals the
composition `new().with_dimension(dim).with_element_type("bool")
.with_template("vec.cs.tera")` — the same chain with the template literal
the code actually uses — and hence so do the built contexts. -/
theorem new_bvec_eq_setter_chain (dim : Nat) :
    ContextBuilder.new_bvec dim =
      ((ContextBuilder.new.with_dimension dim).with_element_type "bool").with_template
        "vec.cs.tera" ∧
    (ContextBuilder.new_bvec dim).build =
      (((ContextBuilder.new.with_dimension dim).with_element_type "bool").with_template
        "vec.cs.tera").build :=
  ⟨rfl, rfl⟩

/-- C3: for every non-negative `d`, `new_bvec(d).build()` has
`element_t = "bool"`, `template_path = "vec.cs.tera"` (the same fixed
string for every `d`), and `dim = d`. -/
theorem new_bvec_build_bindings (d : Nat) :
    (ContextBuilder.new_bvec d).build "element_t" = some (Tera.Value.str "bool") ∧
    (ContextBuilder.new_bvec d).build "template_path" = some (Tera.Value.str "vec.cs.tera") ∧
    (ContextBuilder.new_bvec d).build "dim" = some (Tera.Value.num d) := by
  refine ⟨?_, rfl, ?_⟩ <;>
    simp [ContextBuilder.new_bvec, ContextBuilder.build, ContextBuilder.with_template,
      ContextBuilder.with_element_type, ContextBuilder.with_dimension, Tera.Context.insertVal]

/-- C4: for every finite sequence of setter calls starting from `new()`,
the built context binds each recognized key to the argument of the last
call that set it (absent when no call set it), and binds no other key:
last write wins. -/
theorem runSetters_last_write_wins (calls : List SetterCall) :
    (runSetters calls).build "template_path" = (lastTemplate calls).map Tera.Value.str ∧
    (runSetters calls).build "element_t" = (lastElementType calls).map Tera.Value.str ∧
    (runSetters calls).build "dim" = (lastDimension calls).map Tera.Value.num ∧
    ∀ k, k ≠ "template_path" → k ≠ "element_t" → k ≠ "dim" →
      (runSetters calls).build k = none := by
  refine ⟨?_, ?_, ?_, ?_⟩
  · rw [runSetters, ContextBuilder.build, foldl_template_path]
    cases lastTemplate calls <;> rfl
  · rw [runSetters, ContextBuilder.build, foldl_element_t]
    cases lastElementType calls <;> rfl
  · rw [runSetters, ContextBuilder.build, foldl_dim]
    cases lastDimension calls <;> rfl
  · intro k h1 h2 h3
    rw [runSetters, ContextBuilder.build, foldl_other_key calls ContextBuilder.new k h1 h2 h3]
    rfl

/-- Witness for C4: `new().with_dimension(2).with_dimension(3).build()`
binds `dim` to `3` (the later write), and binds nothing at `"other_key"`. -/
theorem runSetters_last_write_wins_witness :
    (runSetters [SetterCall.dimension 2, SetterCall.dimension 3]).build "dim" =
      some (Tera.Value.num 3) ∧
    (runSetters [SetterCall.dimension 2, SetterCall.dimension 3]).build "other_key" = none := by
  have h := runSetters_last_write_wins [SetterCall.dimension 2, SetterCall.dimension 3]
  exact ⟨by rw [h.2.2.1]; rfl, h.2.2.2 "other_key" (by decide) (by decide) (by decide)⟩

/-- C5: `build()` performs no validation: it returns exactly the
accumulated bindings of every builder, and `new().build()` succeeds with
the empty context (every key unbound). -/
theorem build_no_validation :
    (∀ b : ContextBuilder, b.build = b.ctx) ∧
    (∀ k, ContextBuilder.new.build k = none) :=
  ⟨fun _ => rfl, fun _ => rfl⟩

/-- C6: every core operation is total over its input domain: each setter's
serialization-threaded variant takes the success branch on every input and
agrees with the total function, and likewise for `new_bvec` and
`build_output_pairs`. -/
theorem operations_total :
    (∀ (b : ContextBuilder) (t : String), b.with_templateSer t = some (b.with_template t)) ∧
    (∀ (b : ContextBuilder) (n : String),
      b.with_element_typeSer n = some (b.with_element_type n)) ∧
    (∀ (b : ContextBuilder) (d : Nat), b.with_dimensionSer d = some (b.with_dimension d)) ∧
    (∀ d : Nat, ContextBuilder.new_bvecSer d = some (ContextBuilder.new_bvec d)) ∧
    build_output_pairsSer = some build_output_pairs :=
  ⟨fun _ _ => rfl, fun _ _ => rfl, fun _ _ => rfl, fun _ => rfl, rfl⟩

/-- C7: the keys of the mapping returned by `build_output_pairs()` are
pairwise distinct and all non-empty. -/
theorem build_output_pairs_keys :
    (build_output_pairs.map Prod.fst).Nodup ∧
    ∀ p ∈ build_output_pairs, p.1 ≠ "" := by
  constructor
  · simp [build_output_pairs]
  · intro p hp
    simp [build_output_pairs] at hp
    subst hp
    decide

/-- Witness for C7: the one concrete entry of `build_output_pairs` has a
non-empty key. -/
theorem build_output_pairs_keys_witness :
    (("BVector2d.cs", (ContextBuilder.new_bvec 2).build) : String × Tera.Context).1 ≠ "" :=
  build_output_pairs_keys.2 ("BVector2d.cs", (ContextBuilder.new_bvec 2).build)
    (by simp [build_output_pairs])

/-- C8: every context value in the mapping returned by
`build_output_pairs()` has its `template_path` binding set, so the
missing-required-binding failure is unreachable for these contexts. -/
theorem build_output_pairs_template_path_set :
    ∀ p ∈ build_output_pairs, (p.2 "template_path").isSome := by
  intro p hp
  simp [build_output_pairs] at hp
  subst hp
  decide

/-- Witness for C8: the context bound to `"BVector2d.cs"` has
`template_path` set. -/
theorem build_output_pairs_template_path_set_witness :
    (((ContextBuilder.new_bvec 2).build) "template_path").isSome :=
  build_output_pairs_template_path_set ("BVector2d.cs", (ContextBuilder.new_bvec 2).build)
    (by simp [build_output_pairs])

/-- C9: `with_dimension` accepts every non-negative integer, including 0,
and stores it verbatim as `dim` with no minimum or maximum enforced:
`new().with_dimension(d).build()` binds `dim` to `d` for every `d`. -/
theorem with_dimension_verbatim (d : Nat) :
    (ContextBuilder.new.with_dimension d).build "dim" = some (Tera.Value.num d) ∧
    (ContextBuilder.new.with_dimension 0).build "dim" = some (Tera.Value.num 0) :=
  ⟨rfl, rfl⟩

/-- C10: `with_template` does not check the non-empty-identifier
precondition: every string, the empty string included, is stored verbatim
as `template_path` and a builder is returned without error. -/
theorem with_template_unchecked (s : String) :
    (ContextBuilder.new.with_template s).build "template_path" = some (Tera.Value.str s) ∧
    (ContextBuilder.new.with_template "").build "template_path" = some (Tera.Value.str "") :=
  ⟨rfl, rfl⟩
